import Mathlib

/-!
Verification of the App Check token-verification pipeline of
`firebase_admin/app_check.py` (class `_AppCheckService`), as a shallow
embedding.  Python dictionaries decoded from JSON are association lists,
JSON values are `JVal`, Python exceptions are the `PyExc` inductive, and a
fallible Python call is `Except PyExc α`.  The PyJWT library collaborators
(`PyJWKClient`, `jwt.decode`, `jwt.get_unverified_header`) are modelled to
the fidelity the repository code observes: a compact JWT string is either
structurally malformed or a parsed header/payload pair carrying the name of
the key that produced its signature, and signature verification succeeds
exactly when that key equals the resolved signing key.
-/

/-- A JSON value, as decoded into a Python object. `null` decodes to Python
`None`. -/
inductive JVal where
  | null
  | bool (b : Bool)
  | num (n : Int)
  | str (s : String)
  | arr (xs : List JVal)

/-- A decoded JSON object: Python dict as an association list (keys unique
as produced by JSON decoding; lookup returns the first binding). -/
abbrev Claims := List (String × JVal)

/-- Python `d.get(k)`: `none` when the key is absent. -/
def lookupClaim : Claims → String → Option JVal
  | [], _ => none
  | (k, v) :: rest, key => if k = key then some v else lookupClaim rest key

/-- Python `d[k] = v`: replace the binding if present, else append. -/
def dictSet : Claims → String → JVal → Claims
  | [], key, v => [(key, v)]
  | (k, w) :: rest, key, v =>
      if k = key then (k, v) :: rest else (k, w) :: dictSet rest key v

/-- Python `d.get(k)` used as a value: a missing key yields `None`. -/
def optToPy : Option JVal → JVal
  | none => JVal.null
  | some v => v

/-- Rendering of a Python value into an error-message string (the effect of
`"...".format(value)` / f-string interpolation). -/
def JVal.pyStr : JVal → String
  | .null => "None"
  | .bool true => "True"
  | .bool false => "False"
  | .num n => toString n
  | .str s => s
  | .arr _ => "[list]"

/-- Rendering of an optional Python value (`None` when absent). -/
def optPyStr : Option JVal → String
  | none => "None"
  | some v => v.pyStr

/-- The Python exceptions observable from this module.  The five `jwt*`
constructors model `jwt.DecodeError`, `jwt.InvalidSignatureError`,
`jwt.ExpiredSignatureError`, `jwt.InvalidAudienceError`,
`jwt.InvalidIssuerError` and the remaining `jwt.InvalidTokenError`
subclasses; `pyJWKClientError` models `jwt.PyJWKClientError`, which in
PyJWT derives from `Exception` directly, not from `InvalidTokenError`. -/
inductive PyExc where
  | valueError (msg : String)
  | jwtDecodeError (msg : String)
  | jwtInvalidSignatureError (msg : String)
  | jwtExpiredSignatureError (msg : String)
  | jwtInvalidAudienceError (msg : String)
  | jwtInvalidIssuerError (msg : String)
  | jwtInvalidTokenError (msg : String)
  | pyJWKClientError (msg : String)
  | keyError (key : String)
  | attributeError (msg : String)
  | typeError (msg : String)

/-- The category (class) of an exception, for statements about error kinds. -/
inductive ExcKind where
  | valueError
  | jwtError
  | pyJWKClientError
  | keyError
  | attributeError
  | typeError
  deriving DecidableEq

/-- Classify an exception by its externally visible class. -/
def PyExc.kind : PyExc → ExcKind
  | .valueError _ => .valueError
  | .jwtDecodeError _ => .jwtError
  | .jwtInvalidSignatureError _ => .jwtError
  | .jwtExpiredSignatureError _ => .jwtError
  | .jwtInvalidAudienceError _ => .jwtError
  | .jwtInvalidIssuerError _ => .jwtError
  | .jwtInvalidTokenError _ => .jwtError
  | .pyJWKClientError _ => .pyJWKClientError
  | .keyError _ => .keyError
  | .attributeError _ => .attributeError
  | .typeError _ => .typeError

/-- Model of `str(exception)`, as interpolated into wrapper messages. -/
def PyExc.pyMsg : PyExc → String
  | .valueError m => m
  | .jwtDecodeError m => m
  | .jwtInvalidSignatureError m => m
  | .jwtExpiredSignatureError m => m
  | .jwtInvalidAudienceError m => m
  | .jwtInvalidIssuerError m => m
  | .jwtInvalidTokenError m => m
  | .pyJWKClientError m => m
  | .keyError k => k
  | .attributeError m => m
  | .typeError m => m

/-- Does `except (jwt.InvalidTokenError, jwt.DecodeError)` catch this
exception?  All five modelled jwt exceptions are `InvalidTokenError`
subclasses; `PyJWKClientError`, `ValueError`, `KeyError`, `AttributeError`
and `TypeError` are not. -/
def caughtByVerify : PyExc → Bool
  | .jwtDecodeError _ => true
  | .jwtInvalidSignatureError _ => true
  | .jwtExpiredSignatureError _ => true
  | .jwtInvalidAudienceError _ => true
  | .jwtInvalidIssuerError _ => true
  | .jwtInvalidTokenError _ => true
  | _ => false

/-- A structurally valid compact JWT: decoded header, decoded payload, and
the identity of the key whose private half produced the signature over
header+payload (signature verification under key `k` succeeds iff
`signedBy = k`). -/
structure JwtToken where
  header : Claims
  payload : Claims
  signedBy : String

/-- A Python string holding a candidate token: either not parseable as a
three-segment compact JWT (this includes the empty string), or a parsed
token. -/
inductive TokStr where
  | malformed (raw : String)
  | jwt (t : JwtToken)

/-- A Python value passed as the `token` argument: `None`, a non-string
value (represented by an int), or a string. -/
inductive PyVal where
  | none
  | int (n : Int)
  | str (s : TokStr)

/-- Embedding of `_Validators.check_string` applied to the `token` argument
(src/firebase_admin/app_check.py lines 162-168): raises `ValueError` on
`None` and on non-strings; any string value, including the empty string,
passes.  Returns the raised exception, `none` when no exception. -/
def check_string_tok (label : String) (value : PyVal) : Option PyExc :=
  match value with
  | .none => some (.valueError (label ++ " \"None\" must be a non-empty string."))
  | .int n => some (.valueError (label ++ " \"" ++ toString n ++ "\" must be a string."))
  | .str _ => none

/-- Embedding of `_Validators.check_string` applied to a claim value obtained by
`payload.get("sub")` (an absent key or a JSON `null` is Python `None`). -/
def check_string (label : String) (value : Option JVal) : Except PyExc Unit :=
  match value with
  | none => .error (.valueError (label ++ " \"None\" must be a non-empty string."))
  | some .null => .error (.valueError (label ++ " \"None\" must be a non-empty string."))
  | some (.str _) => .ok ()
  | some v => .error (.valueError (label ++ " \"" ++ v.pyStr ++ "\" must be a string."))

/-- Byte-wise character-list comparison underlying `startswith`. -/
def charsPre : List Char → List Char → Bool
  | [], _ => true
  | _ :: _, [] => false
  | a :: as, b :: bs => a == b && charsPre as bs

/-- Python `s.startswith(p)`. -/
def pyStartsWith (s p : String) : Bool := charsPre p.data s.data

/-- Embedding of `_AppCheckService._APP_CHECK_ISSUER`. -/
def APP_CHECK_ISSUER : String := "https://firebaseappcheck.googleapis.com/"

/-- The verifier configuration fixed at construction
(`_AppCheckService.__init__` validated that `project_id` is non-empty). -/
structure AppCheckService where
  project_id : String

/-- Embedding of the stored `_scoped_project_id`: the literal `projects/` prepended to the project id. -/
def AppCheckService.scoped_project_id (s : AppCheckService) : String :=
  "projects/" ++ s.project_id

/-- Construction-time error message of `_AppCheckService.__init__`. -/
def PROJECT_ID_REQUIRED_MSG : String :=
  "A project ID must be specified to access the App Check service. Either set the projectId option, use service account credentials, or set the GOOGLE_CLOUD_PROJECT environment variable."

/-- Embedding of `_AppCheckService.__init__`: `if not app.project_id: raise ValueError`
(`None` and the empty string are falsy), then store the project id. -/
def AppCheckService.init (project_id : Option String) : Except PyExc AppCheckService :=
  match project_id with
  | none => .error (.valueError PROJECT_ID_REQUIRED_MSG)
  | some p => if p = "" then .error (.valueError PROJECT_ID_REQUIRED_MSG) else .ok ⟨p⟩

/-- The `jwt.PyJWKClient` collaborator: `remote` is the key set served by
the JWKS endpoint (`none` models a remote fetch error), `cache` the cached
JWK set (`none` until first fetched; the 6-hour lifespan is not exceeded
within one modelled scenario). -/
structure PyJWKClient where
  remote : Option (List (String × String))
  cache : Option (List (String × String))

/-- Model of `PyJWKClient.fetch_data`: fetch the JWK set from the endpoint and cache
it; a connection failure raises `PyJWKClientConnectionError`, a subclass of
`PyJWKClientError`. -/
def PyJWKClient.fetch_data (c : PyJWKClient) :
    PyJWKClient × Except PyExc (List (String × String)) :=
  match c.remote with
  | none => (c, .error (.pyJWKClientError "Fail to fetch data from the url"))
  | some ks => ({ c with cache := some ks }, .ok ks)

/-- Model of `PyJWKClient.get_jwk_set`: serve from cache unless absent or a refresh
is forced. -/
def PyJWKClient.get_jwk_set (c : PyJWKClient) (refresh : Bool) :
    PyJWKClient × Except PyExc (List (String × String)) :=
  match c.cache, refresh with
  | some ks, false => (c, .ok ks)
  | _, _ => c.fetch_data

/-- Model of `PyJWKClient.get_signing_keys`: the JWK set must contain at least one
signing key. -/
def PyJWKClient.get_signing_keys (c : PyJWKClient) (refresh : Bool) :
    PyJWKClient × Except PyExc (List (String × String)) :=
  match c.get_jwk_set refresh with
  | (c1, .error e) => (c1, .error e)
  | (c1, .ok ks) =>
      if ks.isEmpty then
        (c1, .error (.pyJWKClientError "The JWKS endpoint did not contain any signing keys"))
      else (c1, .ok ks)

/-- Model of `PyJWKClient.match_kid`: find the key whose `key_id` equals the header
`kid` (no key matches a missing `kid`). -/
def matchKid (keys : List (String × String)) (kid : Option String) : Option String :=
  match kid with
  | none => none
  | some k =>
    match keys with
    | [] => none
    | (k1, v1) :: rest => if k1 = k then some v1 else matchKid rest (some k)

/-- The `kid` as interpolated into the not-found message. -/
def kidRepr : Option String → String
  | none => "None"
  | some k => k

/-- Model of `PyJWKClient.get_signing_key`: look the `kid` up in the cached set; on
a miss refresh the set once and retry; a second miss raises
`PyJWKClientError`. -/
def PyJWKClient.get_signing_key (c : PyJWKClient) (kid : Option String) :
    PyJWKClient × Except PyExc String :=
  match c.get_signing_keys false with
  | (c1, .error e) => (c1, .error e)
  | (c1, .ok keys) =>
    match matchKid keys kid with
    | some key => (c1, .ok key)
    | none =>
      match c1.get_signing_keys true with
      | (c2, .error e) => (c2, .error e)
      | (c2, .ok keys2) =>
        match matchKid keys2 kid with
        | some key => (c2, .ok key)
        | none =>
            (c2, .error (.pyJWKClientError
              ("Unable to find a signing key that matches: \"" ++ kidRepr kid ++ "\"")))

/-- The `kid` field of an unverified header (`header.get("kid")`; a
non-string `kid` matches no key id). -/
def headerKid (h : Claims) : Option String :=
  match lookupClaim h "kid" with
  | some (.str s) => some s
  | _ => none

/-- Model of `PyJWKClient.get_signing_key_from_jwt`: parse the token without
verification to read its `kid` (a malformed token raises
`jwt.DecodeError`), then resolve the key. -/
def PyJWKClient.get_signing_key_from_jwt (c : PyJWKClient) (tok : TokStr) :
    PyJWKClient × Except PyExc String :=
  match tok with
  | .malformed _ => (c, .error (.jwtDecodeError "Not enough segments"))
  | .jwt t => c.get_signing_key (headerKid t.header)

/-- Model of `jwt.get_unverified_header`: the decoded header of a structurally
valid token; `jwt.DecodeError` otherwise. -/
def get_unverified_header : TokStr → Except PyExc Claims
  | .malformed _ => .error (.jwtDecodeError "Not enough segments")
  | .jwt t => .ok t.header

/-- Is every element of the decoded audience list a string
(PyJWT rejects mixed-type audience lists)? -/
def allStrs : List JVal → Bool
  | [] => true
  | .str _ :: rest => allStrs rest
  | _ :: _ => false

/-- Does the decoded audience list contain the expected audience string? -/
def audHas : List JVal → String → Bool
  | [], _ => false
  | .str a :: rest, s => a == s || audHas rest s
  | _ :: rest, s => audHas rest s

/-- Accumulate a decimal digit string into a number; `none` on the first
non-digit. -/
def digitsToNatAux : List Char → Nat → Option Nat
  | [], acc => some acc
  | c :: cs, acc =>
      if c.isDigit then digitsToNatAux cs (acc * 10 + (c.toNat - 48)) else none

/-- Model of Python `int(s)` on a string: an optional sign followed by
decimal digits parses; anything else raises `ValueError` (whitespace
trimming and underscore separators are not modelled). -/
def pyStrToInt (s : String) : Option Int :=
  match s.data with
  | [] => none
  | '-' :: [] => none
  | '-' :: c :: cs => (digitsToNatAux (c :: cs) 0).map fun n => -(n : Int)
  | '+' :: [] => none
  | '+' :: c :: cs => (digitsToNatAux (c :: cs) 0).map fun n => (n : Int)
  | c :: cs => (digitsToNatAux (c :: cs) 0).map fun n => (n : Int)

/-- Model of Python `int(x)`: an integer converts to itself, a boolean to
one or zero, a string via its decimal parse (`ValueError` when it is not an
integer literal); a JSON `null` or a list raises `TypeError`, which no
PyJWT claim validator catches. -/
def pyIntConv : JVal → Except PyExc Int
  | .num n => .ok n
  | .bool b => .ok (if b then 1 else 0)
  | .str s =>
    match pyStrToInt s with
    | some n => .ok n
    | none => .error (.valueError "invalid literal for int() with base 10")
  | .null => .error (.typeError "int() argument must be a string, a bytes-like object or a real number, not NoneType")
  | .arr _ => .error (.typeError "int() argument must be a string, a bytes-like object or a real number, not list")

/-- Is this Python value falsy (`not value` in Python)?  For the values a
JSON payload can hold: `None`, `False`, `0`, the empty string and the
empty list. -/
def pyFalsy : JVal → Bool
  | .null => true
  | .bool b => !b
  | .num n => n == 0
  | .str s => s.isEmpty
  | .arr xs => xs.isEmpty

/-- PyJWT `_validate_iat` (leeway 0): run only when `iat` is present;
`int(payload["iat"])` catching only `ValueError` (mapped to
`InvalidIssuedAtError`, an `InvalidTokenError`; a `TypeError` escapes);
an `iat` after `now` raises `ImmatureSignatureError`, also an
`InvalidTokenError`. -/
def validate_iat (payload : Claims) (now : Int) : Except PyExc Unit :=
  match lookupClaim payload "iat" with
  | none => .ok ()
  | some v =>
    match pyIntConv v with
    | .ok iat => if now < iat then .error (.jwtInvalidTokenError "The token is not yet valid (iat)") else .ok ()
    | .error (.valueError _) => .error (.jwtInvalidTokenError "Issued At claim (iat) must be an integer.")
    | .error e => .error e

/-- PyJWT `_validate_nbf` (leeway 0): run only when `nbf` is present;
`int(payload["nbf"])` catching only `ValueError` (mapped to `DecodeError`;
a `TypeError` escapes); an `nbf` after `now` raises
`ImmatureSignatureError`, an `InvalidTokenError`. -/
def validate_nbf (payload : Claims) (now : Int) : Except PyExc Unit :=
  match lookupClaim payload "nbf" with
  | none => .ok ()
  | some v =>
    match pyIntConv v with
    | .ok nbf => if now < nbf then .error (.jwtInvalidTokenError "The token is not yet valid (nbf)") else .ok ()
    | .error (.valueError _) => .error (.jwtDecodeError "Not Before claim (nbf) must be an integer.")
    | .error e => .error e

/-- PyJWT `_validate_exp` (leeway 0): run only when `exp` is present;
`int(payload["exp"])` catching only `ValueError` (mapped to `DecodeError`;
a `TypeError` from a null or list `exp` escapes); an integer `exp` at or
before `now` raises `ExpiredSignatureError`. -/
def validate_exp (payload : Claims) (now : Int) : Except PyExc Unit :=
  match lookupClaim payload "exp" with
  | none => .ok ()
  | some v =>
    match pyIntConv v with
    | .ok e => if e ≤ now then .error (.jwtExpiredSignatureError "Signature has expired") else .ok ()
    | .error (.valueError _) => .error (.jwtDecodeError "Expiration Time claim (exp) must be an integer.")
    | .error e => .error e

/-- PyJWT `_validate_aud` with an `audience` argument: an absent or falsy
`aud` claim (including the empty list and the empty string) raises
`MissingRequiredClaimError`, an `InvalidTokenError`; a scalar string claim
is wrapped into a one-element list; a non-list, or a list with a
non-string element, raises `InvalidAudienceError`; otherwise the expected
audience must be a member. -/
def validate_aud (payload : Claims) (audience : String) : Except PyExc Unit :=
  match lookupClaim payload "aud" with
  | none => .error (.jwtInvalidTokenError "Token is missing the \"aud\" claim")
  | some v =>
    if pyFalsy v then .error (.jwtInvalidTokenError "Token is missing the \"aud\" claim")
    else
      match v with
      | .str a =>
          if a = audience then .ok ()
          else .error (.jwtInvalidAudienceError "Audience does not match")
      | .arr xs =>
          if allStrs xs then
            if audHas xs audience then .ok ()
            else .error (.jwtInvalidAudienceError "Audience does not match")
          else .error (.jwtInvalidAudienceError "Invalid claim format in token")
      | _ => .error (.jwtInvalidAudienceError "Invalid claim format in token")

/-- Model of `jwt.decode(token, signing_key, algorithms=["RS256"], audience=...)`:
reject malformed tokens; reject an `alg` header outside the allowed list
(`InvalidAlgorithmError`, an `InvalidTokenError`); verify the signature
with the given key; then validate registered claims in PyJWT order —
`iat`, `nbf`, `exp`, then `aud`; no issuer check, since no `issuer`
argument is passed. -/
def jwt_decode (tok : TokStr) (signing_key : String) (audience : String) (now : Int) :
    Except PyExc Claims :=
  match tok with
  | .malformed _ => .error (.jwtDecodeError "Not enough segments")
  | .jwt t =>
    match lookupClaim t.header "alg" with
    | some (.str "RS256") =>
      if t.signedBy = signing_key then
        match validate_iat t.payload now with
        | .error e => .error e
        | .ok _ =>
          match validate_nbf t.payload now with
          | .error e => .error e
          | .ok _ =>
            match validate_exp t.payload now with
            | .error e => .error e
            | .ok _ =>
              match validate_aud t.payload audience with
              | .error e => .error e
              | .ok _ => .ok t.payload
      else .error (.jwtInvalidSignatureError "Signature verification failed")
    | _ => .error (.jwtInvalidTokenError "The specified alg value is not allowed")

/-- Embedding of `_AppCheckService._has_valid_token_headers`: `typ` must equal `JWT`
and `alg` must equal `RS256`; each violation raises `ValueError`
(src/firebase_admin/app_check.py lines 98-109). -/
def has_valid_token_headers (headers : Claims) : Except PyExc Unit :=
  match lookupClaim headers "typ" with
  | some (.str "JWT") =>
    match lookupClaim headers "alg" with
    | some (.str "RS256") => .ok ()
    | v => .error (.valueError
        ("The provided App Check token has an incorrect alg header. Expected RS256 but got "
          ++ optPyStr v ++ "."))
  | _ => .error (.valueError "The provided App Check token has an incorrect type header")

/-- Embedding of `_AppCheckService._decode_and_verify`
(src/firebase_admin/app_check.py lines 111-153): run `jwt.decode`, mapping
each library exception class to a `ValueError` with a descriptive message;
then re-check that `aud` is a list containing the scoped project id, that
`iss` (accessed by subscript: `KeyError` if absent, `AttributeError` if
not a string) starts with the issuer base URL, and that `sub` passes
`check_string`. -/
def decode_and_verify (svc : AppCheckService) (tok : TokStr) (signing_key : String)
    (now : Int) : Except PyExc Claims :=
  match jwt_decode tok signing_key svc.scoped_project_id now with
  | .error (.jwtInvalidSignatureError _) =>
      .error (.valueError "The provided App Check token has an invalid signature.")
  | .error (.jwtInvalidAudienceError _) =>
      .error (.valueError
        ("The provided App Check token has an incorrect \"aud\" (audience) claim. Expected payload to include "
          ++ svc.scoped_project_id ++ "."))
  | .error (.jwtInvalidIssuerError _) =>
      .error (.valueError
        ("The provided App Check token has an incorrect \"iss\" (issuer) claim. Expected claim to include "
          ++ APP_CHECK_ISSUER))
  | .error (.jwtExpiredSignatureError _) =>
      .error (.valueError "The provided App Check token has expired.")
  | .error (.jwtDecodeError m) =>
      .error (.valueError ("Decoding App Check token failed. Error: " ++ m))
  | .error (.jwtInvalidTokenError m) =>
      .error (.valueError ("Decoding App Check token failed. Error: " ++ m))
  | .error e => .error e
  | .ok payload =>
    match lookupClaim payload "aud" with
    | some (.arr xs) =>
      if audHas xs svc.scoped_project_id then
        match lookupClaim payload "iss" with
        | none => .error (.keyError "iss")
        | some (.str iss) =>
          if pyStartsWith iss APP_CHECK_ISSUER then
            match check_string "The provided App Check token \"sub\" (subject) claim"
                (lookupClaim payload "sub") with
            | .error e => .error e
            | .ok _ => .ok payload
          else .error (.valueError "Token does not contain the correct \"iss\" (issuer).")
        | some _ => .error (.attributeError "startswith")
      else .error (.valueError "Firebase App Check token has incorrect \"aud\" (audience) claim.")
    | _ => .error (.valueError "Firebase App Check token has incorrect \"aud\" (audience) claim.")

/-- The re-raise of `verify_token`: an exception caught by
`except (jwt.InvalidTokenError, jwt.DecodeError)` is replaced by a
`ValueError` wrapping its message; any other exception propagates. -/
def rewrap (e : PyExc) : PyExc :=
  if caughtByVerify e then
    .valueError ("Verifying App Check token failed. Error: " ++ e.pyMsg)
  else e

/-- Embedding of the claim augmentation `verified_claims["app_id"] = verified_claims.get("sub")`
(src/firebase_admin/app_check.py line 95). -/
def setAppId (payload : Claims) : Claims :=
  dictSet payload "app_id" (optToPy (lookupClaim payload "sub"))

/-- Embedding of `_AppCheckService.verify_token` (src/firebase_admin/app_check.py lines
79-96): `check_string` precondition, then inside the try block key
resolution via the `PyJWKClient`, the unverified-header shape check, and
`_decode_and_verify`; caught jwt exceptions are re-raised as `ValueError`;
finally the `app_id` alias is added.  The client cache state is threaded
through and returned.  The final catch-all branch is unreachable:
`check_string_tok` returns an exception for every non-string value. -/
def AppCheckService.verify_token (svc : AppCheckService) (client : PyJWKClient)
    (token : PyVal) (now : Int) : PyJWKClient × Except PyExc Claims :=
  match check_string_tok "app check token" token, token with
  | some e, _ => (client, .error e)
  | _, .str tok =>
    match client.get_signing_key_from_jwt tok with
    | (c1, .error e) => (c1, .error (rewrap e))
    | (c1, .ok signing_key) =>
      match get_unverified_header tok with
      | .error e => (c1, .error (rewrap e))
      | .ok headers =>
        match has_valid_token_headers headers with
        | .error e => (c1, .error (rewrap e))
        | .ok _ =>
          match decode_and_verify svc tok signing_key now with
          | .error e => (c1, .error (rewrap e))
          | .ok verified_claims => (c1, .ok (setAppId verified_claims))
  | _, _ => (client, .error (.valueError "unreachable"))

/-- The continuation of `verify_token` on a structurally valid token after
key resolution, as a function of the key-resolution outcome alone (used to
factor the state threading for the idempotence proof). -/
def afterKey (svc : AppCheckService) (t : JwtToken) (now : Int)
    (r : Except PyExc String) : Except PyExc Claims :=
  match r with
  | .error e => .error (rewrap e)
  | .ok signing_key =>
    match has_valid_token_headers t.header with
    | .error e => .error (rewrap e)
    | .ok _ =>
      match decode_and_verify svc (.jwt t) signing_key now with
      | .error e => .error (rewrap e)
      | .ok verified_claims => .ok (setAppId verified_claims)

/-! Concrete fixtures: a verifier for project `proj-x`, a JWKS endpoint
serving one key `k1` with key material `key1`, and tokens for the concrete
scenario of the spec. -/

/-- The verifier of the concrete scenario: project id `proj-x`. -/
def svcX : AppCheckService := ⟨"proj-x"⟩

/-- A JWKS client whose endpoint serves key id `k1` with material `key1`,
nothing cached yet. -/
def clientX : PyJWKClient := { remote := some [("k1", "key1")], cache := none }

/-- The scenario header: `typ JWT`, `alg RS256`, key id `k1`. -/
def hdrX : Claims := [("typ", .str "JWT"), ("alg", .str "RS256"), ("kid", .str "k1")]

/-- The scenario issuer claim value. -/
def issX : String := "https://firebaseappcheck.googleapis.com/proj-x"

/-- The payload exactly as the spec scenario states it, with
`aud = ["proj-x"]`. -/
def payloadSpecC4 : Claims :=
  [("aud", .arr [.str "proj-x"]), ("iss", .str issX),
   ("sub", .str "1:1234:android:abcd"), ("exp", .num 2000)]

/-- The scenario payload with the audience the code actually expects:
`aud = ["projects/proj-x"]`. -/
def payloadOkC4 : Claims :=
  [("aud", .arr [.str "projects/proj-x"]), ("iss", .str issX),
   ("sub", .str "1:1234:android:abcd"), ("exp", .num 2000)]

/-- The scenario token as the spec states it, signed by `key1` (the
material the client serves for `k1`). -/
def tokSpecC4 : TokStr := .jwt ⟨hdrX, payloadSpecC4, "key1"⟩

/-- The scenario token with the corrected audience list. -/
def tokOkC4 : TokStr := .jwt ⟨hdrX, payloadOkC4, "key1"⟩

/-- A token like the corrected scenario but whose header names a key id the
JWKS endpoint does not serve. -/
def tokBadKid : TokStr :=
  .jwt ⟨[("typ", .str "JWT"), ("alg", .str "RS256"), ("kid", .str "nope")],
    payloadOkC4, "key1"⟩

/-- The corrected scenario payload with an empty-string `sub` claim. -/
def payloadEmptySub : Claims :=
  [("aud", .arr [.str "projects/proj-x"]), ("iss", .str issX),
   ("sub", .str ""), ("exp", .num 2000)]

/-- A fully valid token except that its `sub` claim is the empty string. -/
def tokEmptySub : TokStr := .jwt ⟨hdrX, payloadEmptySub, "key1"⟩

/-- The corrected scenario payload but expired at verification time 1000. -/
def payloadExpired : Claims :=
  [("aud", .arr [.str "projects/proj-x"]), ("iss", .str issX),
   ("sub", .str "S"), ("exp", .num 500)]

/-- A payload whose audience list does not contain the scoped project id. -/
def payloadWrongAud : Claims :=
  [("aud", .arr [.str "projects/other"]), ("iss", .str issX),
   ("sub", .str "S"), ("exp", .num 2000)]

/-- A payload whose issuer does not start with the App Check issuer URL. -/
def payloadBadIss : Claims :=
  [("aud", .arr [.str "projects/proj-x"]), ("iss", .str "https://evil.example.com/proj-x"),
   ("sub", .str "S"), ("exp", .num 2000)]

/-- A header advertising the HS256 algorithm. -/
def hdrHS256 : Claims :=
  [("typ", .str "JWT"), ("alg", .str "HS256"), ("kid", .str "k1")]

/-- An otherwise valid token whose header advertises HS256. -/
def tokHS256 : TokStr := .jwt ⟨hdrHS256, payloadOkC4, "key1"⟩

/-- A valid payload that already carries an `app_id` claim different from
its `sub` claim. -/
def payloadPreApp : Claims :=
  [("aud", .arr [.str "projects/proj-x"]), ("app_id", .str "OLD"),
   ("iss", .str issX), ("sub", .str "S"), ("exp", .num 2000)]

/-- A valid token whose payload already carries an `app_id` claim. -/
def tokPreApp : TokStr := .jwt ⟨hdrX, payloadPreApp, "key1"⟩

/-- Did the call return claims (no exception)? -/
def isSuccess : Except PyExc Claims → Bool
  | .ok _ => true
  | .error _ => false

/-! Frame lemmas for the dict-assignment model. -/

theorem lookupClaim_dictSet_self (m : Claims) (k : String) (v : JVal) :
    lookupClaim (dictSet m k v) k = some v := by
  induction m with
  | nil => simp [dictSet, lookupClaim]
  | cons hd tl ih =>
    obtain ⟨k1, v1⟩ := hd
    by_cases h : k1 = k
    · simp [dictSet, h, lookupClaim]
    · simp [dictSet, h, lookupClaim, ih]

theorem lookupClaim_dictSet_ne (m : Claims) (k k1 : String) (v : JVal) (h : k1 ≠ k) :
    lookupClaim (dictSet m k v) k1 = lookupClaim m k1 := by
  induction m with
  | nil => simp [dictSet, lookupClaim, Ne.symm h]
  | cons hd tl ih =>
    obtain ⟨k0, v0⟩ := hd
    by_cases h0 : k0 = k
    · simp [dictSet, h0, lookupClaim, Ne.symm h]
    · simp [dictSet, h0, lookupClaim, ih]

/-! Inversion lemmas for the verification pipeline. -/

theorem check_string_ok_inv (label : String) (v : Option JVal) (u : Unit)
    (h : check_string label v = .ok u) : ∃ s, v = some (.str s) := by
  unfold check_string at h
  split at h <;> simp_all

theorem jwt_decode_ok_inv (t : JwtToken) (key aud : String) (now : Int) (p : Claims)
    (h : jwt_decode (.jwt t) key aud now = .ok p) :
    p = t.payload ∧ lookupClaim t.header "alg" = some (.str "RS256") ∧
      t.signedBy = key ∧ validate_exp t.payload now = .ok () ∧
      validate_aud t.payload aud = .ok () := by
  simp only [jwt_decode] at h
  split at h
  · rename_i halg
    split at h
    · rename_i hsig
      split at h
      · simp at h
      · split at h
        · simp at h
        · split at h
          · simp at h
          · split at h
            · simp at h
            · simp_all
    · simp_all
  · simp_all

theorem decode_and_verify_ok_inv (svc : AppCheckService) (tok : TokStr) (key : String)
    (now : Int) (p : Claims) (h : decode_and_verify svc tok key now = .ok p) :
    jwt_decode tok key svc.scoped_project_id now = .ok p ∧
    (∃ xs, lookupClaim p "aud" = some (.arr xs) ∧ audHas xs svc.scoped_project_id = true) ∧
    (∃ s, lookupClaim p "iss" = some (.str s) ∧ pyStartsWith s APP_CHECK_ISSUER = true) ∧
    (∃ s, lookupClaim p "sub" = some (.str s)) := by
  unfold decode_and_verify at h
  split at h <;> try simp_all
  rename_i payload hdec
  split at h <;> try simp_all
  rename_i xs haud
  split at h <;> try simp_all
  rename_i hhas
  split at h <;> try simp_all
  rename_i iss hiss
  split at h <;> try simp_all
  rename_i hpre
  split at h <;> try simp_all
  rename_i u hsub
  obtain ⟨s, hs⟩ := check_string_ok_inv _ _ _ hsub
  exact ⟨s, hs⟩

theorem get_unverified_header_ok_inv (tok : TokStr) (hd : Claims)
    (h : get_unverified_header tok = .ok hd) : ∃ t, tok = .jwt t ∧ hd = t.header := by
  cases tok <;> simp_all [get_unverified_header]

theorem verify_token_ok_inv (svc : AppCheckService) (client : PyJWKClient)
    (token : PyVal) (now : Int) (claims : Claims)
    (h : (svc.verify_token client token now).2 = .ok claims) :
    ∃ t key, token = .str (.jwt t) ∧
      (client.get_signing_key_from_jwt (.jwt t)).2 = .ok key ∧
      has_valid_token_headers t.header = .ok () ∧
      decode_and_verify svc (.jwt t) key now = .ok t.payload ∧
      claims = setAppId t.payload := by
  unfold AppCheckService.verify_token at h
  split at h <;> try simp_all
  rename_i tok htok
  split at h <;> try simp_all
  rename_i c1 key hkey
  split at h <;> try simp_all
  rename_i hd hhd
  obtain ⟨t, ht, rfl⟩ := get_unverified_header_ok_inv _ _ hhd
  subst ht
  split at h <;> try simp_all
  rename_i u hvh
  split at h <;> try simp_all
  rename_i payload hdav
  have hp := (decode_and_verify_ok_inv _ _ _ _ _ hdav).1
  have hpp := (jwt_decode_ok_inv _ _ _ _ _ hp).1
  subst hpp
  exact ⟨rfl, h.symm⟩

/-! Error-kind lemmas: which exception classes each pipeline stage can raise. -/

theorem pyIntConv_err (v : JVal) (e : PyExc) (h : pyIntConv v = .error e) :
    e.kind = ExcKind.valueError ∨ e.kind = ExcKind.typeError := by
  cases v with
  | null => simp only [pyIntConv] at h; injection h with h; subst h; right; rfl
  | bool b => simp only [pyIntConv] at h; injection h
  | num n => simp only [pyIntConv] at h; injection h
  | str s =>
    simp only [pyIntConv] at h
    split at h
    · injection h
    · injection h with h; subst h; left; rfl
  | arr xs => simp only [pyIntConv] at h; injection h with h; subst h; right; rfl

theorem validate_iat_err (p : Claims) (now : Int) (e : PyExc)
    (h : validate_iat p now = .error e) :
    caughtByVerify e = true ∨ e.kind = ExcKind.typeError := by
  unfold validate_iat at h
  split at h
  · simp at h
  · split at h
    · split at h
      · left; injection h with h; subst h; rfl
      · simp at h
    · left; injection h with h; subst h; rfl
    · rename_i e1 hnv heq
      injection h with h
      subst h
      cases pyIntConv_err _ _ heq with
      | inl hk =>
        cases e1 <;> simp [PyExc.kind] at hk
        exact (hnv _ rfl).elim
      | inr hk => right; exact hk

theorem validate_nbf_err (p : Claims) (now : Int) (e : PyExc)
    (h : validate_nbf p now = .error e) :
    caughtByVerify e = true ∨ e.kind = ExcKind.typeError := by
  unfold validate_nbf at h
  split at h
  · simp at h
  · split at h
    · split at h
      · left; injection h with h; subst h; rfl
      · simp at h
    · left; injection h with h; subst h; rfl
    · rename_i e1 hnv heq
      injection h with h
      subst h
      cases pyIntConv_err _ _ heq with
      | inl hk =>
        cases e1 <;> simp [PyExc.kind] at hk
        exact (hnv _ rfl).elim
      | inr hk => right; exact hk

theorem validate_exp_err (p : Claims) (now : Int) (e : PyExc)
    (h : validate_exp p now = .error e) :
    caughtByVerify e = true ∨ e.kind = ExcKind.typeError := by
  unfold validate_exp at h
  split at h
  · simp at h
  · split at h
    · split at h
      · left; injection h with h; subst h; rfl
      · simp at h
    · left; injection h with h; subst h; rfl
    · rename_i e1 hnv heq
      injection h with h
      subst h
      cases pyIntConv_err _ _ heq with
      | inl hk =>
        cases e1 <;> simp [PyExc.kind] at hk
        exact (hnv _ rfl).elim
      | inr hk => right; exact hk

theorem validate_aud_err (p : Claims) (aud : String) (e : PyExc)
    (h : validate_aud p aud = .error e) : caughtByVerify e = true := by
  unfold validate_aud at h
  split at h <;> (try split at h) <;> (try split at h) <;> (try split at h) <;>
    (try split at h) <;>
    (simp at h <;> (try subst h) <;> rfl)

theorem jwt_decode_err (tok : TokStr) (key aud : String) (now : Int) (e : PyExc)
    (h : jwt_decode tok key aud now = .error e) :
    caughtByVerify e = true ∨ e.kind = ExcKind.typeError := by
  cases tok with
  | malformed r =>
    simp only [jwt_decode] at h
    injection h with h; subst h; left; rfl
  | jwt t =>
    simp only [jwt_decode] at h
    split at h
    · split at h
      · split at h
        · rename_i e1 heq
          injection h with h; subst h; exact validate_iat_err _ _ _ heq
        · split at h
          · rename_i e1 heq
            injection h with h; subst h; exact validate_nbf_err _ _ _ heq
          · split at h
            · rename_i e1 heq
              injection h with h; subst h; exact validate_exp_err _ _ _ heq
            · split at h
              · rename_i e1 heq
                injection h with h; subst h; left; exact validate_aud_err _ _ _ heq
              · simp at h
      · injection h with h; subst h; left; rfl
    · injection h with h; subst h; left; rfl

theorem check_string_err (label : String) (v : Option JVal) (e : PyExc)
    (h : check_string label v = .error e) : e.kind = ExcKind.valueError := by
  unfold check_string at h
  split at h <;>
    (simp at h <;> (try subst h) <;> rfl)

theorem has_valid_token_headers_err (hd : Claims) (e : PyExc)
    (h : has_valid_token_headers hd = .error e) : e.kind = ExcKind.valueError := by
  unfold has_valid_token_headers at h
  split at h <;> (try split at h) <;>
    (simp at h <;> (try subst h) <;> rfl)

theorem decode_and_verify_err (svc : AppCheckService) (tok : TokStr) (key : String)
    (now : Int) (e : PyExc) (h : decode_and_verify svc tok key now = .error e) :
    e.kind = ExcKind.valueError ∨ e = .keyError "iss" ∨ e.kind = ExcKind.attributeError ∨
      e.kind = ExcKind.typeError := by
  unfold decode_and_verify at h
  cases hdec : jwt_decode tok key svc.scoped_project_id now with
  | error e1 =>
    rw [hdec] at h
    have hc := jwt_decode_err _ _ _ _ _ hdec
    cases e1 <;> simp [caughtByVerify, PyExc.kind] at hc <;> simp at h <;> subst h <;>
      simp [PyExc.kind]
  | ok payload =>
    rw [hdec] at h
    split at h <;> try (exfalso; simp_all; done)
    split at h
    · split at h
      · split at h
        · right; left; injection h with h; exact h.symm
        · split at h
          · split at h
            · rename_i e1 heq
              injection h with h; subst h
              exact Or.inl (check_string_err _ _ _ heq)
            · simp at h
          · left; injection h with h; subst h; rfl
        · right; right; left; injection h with h; subst h; rfl
      · left; injection h with h; subst h; rfl
    · left; injection h with h; subst h; rfl

/-! State lemmas for the `PyJWKClient` cache. -/

theorem get_signing_key_fix (c : PyJWKClient) (kid : Option String) :
    ((c.get_signing_key kid).1).get_signing_key kid = c.get_signing_key kid := by
  obtain ⟨remote, cache⟩ := c
  cases remote with
  | none =>
    cases cache with
    | none => rfl
    | some ks =>
      cases hks : ks.isEmpty <;> cases hm : matchKid ks kid <;>
        simp [PyJWKClient.get_signing_key, PyJWKClient.get_signing_keys,
          PyJWKClient.get_jwk_set, PyJWKClient.fetch_data, hks, hm]
  | some rs =>
    cases cache with
    | none =>
      cases hrs : rs.isEmpty <;> cases hm : matchKid rs kid <;>
        simp [PyJWKClient.get_signing_key, PyJWKClient.get_signing_keys,
          PyJWKClient.get_jwk_set, PyJWKClient.fetch_data, hrs, hm]
    | some ks =>
      cases hks : ks.isEmpty <;> cases hrs : rs.isEmpty <;>
        cases hm : matchKid ks kid <;> cases hm2 : matchKid rs kid <;>
          simp [PyJWKClient.get_signing_key, PyJWKClient.get_signing_keys,
            PyJWKClient.get_jwk_set, PyJWKClient.fetch_data, hks, hrs, hm, hm2]

theorem verify_jwt_decomp (svc : AppCheckService) (client : PyJWKClient) (t : JwtToken)
    (now : Int) :
    svc.verify_token client (.str (.jwt t)) now =
      ((client.get_signing_key (headerKid t.header)).1,
        afterKey svc t now (client.get_signing_key (headerKid t.header)).2) := by
  cases hp : client.get_signing_key (headerKid t.header) with
  | mk c1 r =>
    cases r with
    | error e =>
      simp [AppCheckService.verify_token, check_string_tok,
        PyJWKClient.get_signing_key_from_jwt, hp, afterKey]
    | ok key =>
      simp only [AppCheckService.verify_token, check_string_tok,
        PyJWKClient.get_signing_key_from_jwt, hp, afterKey, get_unverified_header]
      split
      · rfl
      · split <;> rfl

/-! Claim theorems. -/

/-- C9: calling `verify_token` twice with the same token string, the same
verification time and unchanged key material (the same JWKS endpoint
contents), threading the client cache state from the first call into the
second, yields equal outcomes. -/
theorem C9_verify_idempotent (svc : AppCheckService) (client : PyJWKClient)
    (token : PyVal) (now : Int) :
    (svc.verify_token (svc.verify_token client token now).1 token now).2 =
      (svc.verify_token client token now).2 := by
  cases token with
  | none => rfl
  | int n => rfl
  | str tok =>
    cases tok with
    | malformed r => rfl
    | jwt t => simp [verify_jwt_decomp, get_signing_key_fix]

/-- C2 (amended): a `None` or non-string token argument is rejected
immediately by the `check_string` precondition with its `ValueError`, and
the client is untouched (no key fetch, no header decoding); the empty
string, however, passes the precondition (see the counterexample). -/
theorem C2_non_string_rejected (svc : AppCheckService) (client : PyJWKClient)
    (token : PyVal) (now : Int) (e : PyExc)
    (h : check_string_tok "app check token" token = some e) :
    svc.verify_token client token now = (client, .error e) ∧
      e.kind = ExcKind.valueError := by
  cases token <;> simp [check_string_tok] at h <;> subst h <;>
    exact ⟨by simp [AppCheckService.verify_token, check_string_tok], rfl⟩

/-- Witness for C2 at the concrete input `None`. -/
theorem C2_non_string_rejected_witness :
    svcX.verify_token clientX PyVal.none 1000 =
      (clientX, .error (.valueError "app check token \"None\" must be a non-empty string.")) ∧
    (PyExc.valueError "app check token \"None\" must be a non-empty string.").kind =
      ExcKind.valueError :=
  C2_non_string_rejected svcX clientX PyVal.none 1000 _ rfl

/-- Counterexample for C2 as stated: the empty string is not rejected by
the non-empty-string precondition (`check_string` passes it), and the
failure it eventually produces is the wrapped decode error raised during
key resolution, not the precondition error. -/
theorem C2_empty_string_counterexample :
    check_string_tok "app check token" (.str (.malformed "")) = none ∧
    (svcX.verify_token clientX (.str (.malformed "")) 1000).2 =
      .error (.valueError "Verifying App Check token failed. Error: Not enough segments") :=
  ⟨rfl, rfl⟩

/-- C3 (amended): on every successful call the returned claims contain a
`sub` claim that is a string — but possibly the empty string (see the
counterexample); a missing, null, or non-string `sub` is never returned. -/
theorem C3_sub_string_on_success (svc : AppCheckService) (client : PyJWKClient)
    (token : PyVal) (now : Int) (claims : Claims)
    (h : (svc.verify_token client token now).2 = .ok claims) :
    ∃ s, lookupClaim claims "sub" = some (.str s) := by
  obtain ⟨t, key, -, -, -, hdav, rfl⟩ := verify_token_ok_inv _ _ _ _ _ h
  obtain ⟨-, -, -, s, hs⟩ := decode_and_verify_ok_inv _ _ _ _ _ hdav
  refine ⟨s, ?_⟩
  unfold setAppId
  rw [lookupClaim_dictSet_ne _ _ _ _ (by decide), hs]

/-- Witness for C3 at the corrected concrete scenario. -/
theorem C3_sub_string_on_success_witness :
    ∃ s, lookupClaim (payloadOkC4 ++ [("app_id", JVal.str "1:1234:android:abcd")]) "sub" =
      some (.str s) :=
  C3_sub_string_on_success svcX clientX (.str tokOkC4) 1000 _ rfl

/-- Counterexample for C3 as stated: a token whose `sub` claim is the
empty string verifies successfully, and the claims are returned with the
empty-string subject (and `app_id` aliased to it). -/
theorem C3_empty_sub_counterexample :
    (svcX.verify_token clientX (.str tokEmptySub) 1000).2 =
      .ok (payloadEmptySub ++ [("app_id", JVal.str "")]) ∧
    lookupClaim (payloadEmptySub ++ [("app_id", JVal.str "")]) "sub" = some (.str "") :=
  ⟨rfl, rfl⟩

/-- C4 (amended): the expected audience derived from project id `proj-x`
is `projects/proj-x`, so the scenario token succeeds once its audience
list is `["projects/proj-x"]`; the returned claims include
`app_id = "1:1234:android:abcd"`. -/
theorem C4_scenario_scoped_audience :
    (svcX.verify_token clientX (.str tokOkC4) 1000).2 =
      .ok (payloadOkC4 ++ [("app_id", JVal.str "1:1234:android:abcd")]) ∧
    lookupClaim (payloadOkC4 ++ [("app_id", JVal.str "1:1234:android:abcd")]) "app_id" =
      some (.str "1:1234:android:abcd") :=
  ⟨rfl, rfl⟩

/-- Counterexample for C4 as stated: with audience list `["proj-x"]` (the
spec scenario and its claimed expected audience `proj-x`), verification
fails with the audience `ValueError`. -/
theorem C4_scenario_counterexample :
    (svcX.verify_token clientX (.str tokSpecC4) 1000).2 =
      .error (.valueError "The provided App Check token has an incorrect \"aud\" (audience) claim. Expected payload to include projects/proj-x.") :=
  rfl

/-- C6: whenever `verify_token` succeeds the returned `aud` claim is a
list containing the scoped expected audience; contrapositively, a scalar
`aud` (even one equal to the expected audience) or a list not containing
it can never verify. -/
theorem C6_aud_list_on_success (svc : AppCheckService) (client : PyJWKClient)
    (token : PyVal) (now : Int) (claims : Claims)
    (h : (svc.verify_token client token now).2 = .ok claims) :
    ∃ xs, lookupClaim claims "aud" = some (.arr xs) ∧
      audHas xs svc.scoped_project_id = true := by
  obtain ⟨t, key, -, -, -, hdav, rfl⟩ := verify_token_ok_inv _ _ _ _ _ h
  obtain ⟨-, ⟨xs, haud, hhas⟩, -, -⟩ := decode_and_verify_ok_inv _ _ _ _ _ hdav
  refine ⟨xs, ?_, hhas⟩
  unfold setAppId
  rw [lookupClaim_dictSet_ne _ _ _ _ (by decide), haud]

/-- Witness for C6 at the corrected concrete scenario. -/
theorem C6_aud_list_on_success_witness :
    ∃ xs, lookupClaim (payloadOkC4 ++ [("app_id", JVal.str "1:1234:android:abcd")]) "aud" =
      some (.arr xs) ∧ audHas xs svcX.scoped_project_id = true :=
  C6_aud_list_on_success svcX clientX (.str tokOkC4) 1000 _ rfl

theorem has_valid_token_headers_ok_inv (hd : Claims) (u : Unit)
    (h : has_valid_token_headers hd = .ok u) :
    lookupClaim hd "typ" = some (.str "JWT") ∧
      lookupClaim hd "alg" = some (.str "RS256") := by
  unfold has_valid_token_headers at h
  split at h
  · split at h
    · simp_all
    · simp at h
  · simp at h

/-- C7: a token whose unverified header carries a `typ` other than `JWT`
or an `alg` other than `RS256` (for example `HS256` or `none`) never
verifies, even when correctly signed. -/
theorem C7_header_typ_alg_rejected (svc : AppCheckService) (client : PyJWKClient)
    (t : JwtToken) (now : Int)
    (h : lookupClaim t.header "typ" ≠ some (.str "JWT") ∨
      lookupClaim t.header "alg" ≠ some (.str "RS256")) :
    isSuccess (svc.verify_token client (.str (.jwt t)) now).2 = false := by
  cases hres : (svc.verify_token client (.str (.jwt t)) now).2 with
  | error e => rfl
  | ok claims =>
    exfalso
    obtain ⟨t2, key, heq, -, hvh, -, -⟩ := verify_token_ok_inv _ _ _ _ _ hres
    injection heq with heq
    injection heq with heq
    subst heq
    obtain ⟨h1, h2⟩ := has_valid_token_headers_ok_inv _ _ hvh
    cases h with
    | inl hx => exact hx h1
    | inr hx => exact hx h2

/-- Witness for C7 at a correctly signed token advertising `HS256`. -/
theorem C7_header_typ_alg_rejected_witness :
    isSuccess (svcX.verify_token clientX (.str tokHS256) 1000).2 = false :=
  C7_header_typ_alg_rejected svcX clientX ⟨hdrHS256, payloadOkC4, "key1"⟩ 1000
    (Or.inr (by simp [hdrHS256, lookupClaim]))

/-- C10: on success the returned mapping is exactly the decoded signed
payload with the single key `app_id` (re)bound to the `sub` claim value:
`app_id` maps to `sub`, every other key is unchanged, and a pre-existing
`app_id` claim is overwritten. -/
theorem C10_result_frame (svc : AppCheckService) (client : PyJWKClient)
    (token : PyVal) (now : Int) (claims : Claims)
    (h : (svc.verify_token client token now).2 = .ok claims) :
    ∃ t s, token = .str (.jwt t) ∧
      lookupClaim t.payload "sub" = some (.str s) ∧
      claims = dictSet t.payload "app_id" (.str s) ∧
      lookupClaim claims "app_id" = some (.str s) ∧
      ∀ k, k ≠ "app_id" → lookupClaim claims k = lookupClaim t.payload k := by
  obtain ⟨t, key, htok, -, -, hdav, rfl⟩ := verify_token_ok_inv _ _ _ _ _ h
  obtain ⟨-, -, -, s, hs⟩ := decode_and_verify_ok_inv _ _ _ _ _ hdav
  refine ⟨t, s, htok, hs, ?_, ?_, ?_⟩
  · unfold setAppId; rw [hs]; rfl
  · unfold setAppId; rw [hs]; exact lookupClaim_dictSet_self _ _ _
  · intro k hk; unfold setAppId; exact lookupClaim_dictSet_ne _ _ _ _ hk

/-- Witness for C10 at a valid token whose payload already carries an
`app_id` claim (`"OLD"`), exhibiting the overwrite. -/
theorem C10_result_frame_witness :
    ∃ t s, (PyVal.str tokPreApp) = .str (.jwt t) ∧
      lookupClaim t.payload "sub" = some (.str s) ∧
      [("aud", JVal.arr [.str "projects/proj-x"]), ("app_id", JVal.str "S"),
        ("iss", JVal.str issX), ("sub", JVal.str "S"), ("exp", JVal.num 2000)] =
        dictSet t.payload "app_id" (.str s) ∧
      lookupClaim [("aud", JVal.arr [.str "projects/proj-x"]), ("app_id", JVal.str "S"),
        ("iss", JVal.str issX), ("sub", JVal.str "S"), ("exp", JVal.num 2000)] "app_id" =
        some (.str s) ∧
      ∀ k, k ≠ "app_id" →
        lookupClaim [("aud", JVal.arr [.str "projects/proj-x"]), ("app_id", JVal.str "S"),
          ("iss", JVal.str issX), ("sub", JVal.str "S"), ("exp", JVal.num 2000)] k =
          lookupClaim t.payload k :=
  C10_result_frame svcX clientX (.str tokPreApp) 1000 _ rfl

theorem get_signing_key_err (c : PyJWKClient) (kid : Option String) (e : PyExc)
    (h : (c.get_signing_key kid).2 = .error e) : e.kind = ExcKind.pyJWKClientError := by
  obtain ⟨remote, cache⟩ := c
  cases remote with
  | none =>
    cases cache with
    | none =>
      simp [PyJWKClient.get_signing_key, PyJWKClient.get_signing_keys,
        PyJWKClient.get_jwk_set, PyJWKClient.fetch_data] at h
      subst h; rfl
    | some ks =>
      cases hks : ks.isEmpty <;> cases hm : matchKid ks kid <;>
        simp [PyJWKClient.get_signing_key, PyJWKClient.get_signing_keys,
          PyJWKClient.get_jwk_set, PyJWKClient.fetch_data, hks, hm] at h <;>
        (subst h; rfl)
  | some rs =>
    cases cache with
    | none =>
      cases hrs : rs.isEmpty <;> cases hm : matchKid rs kid <;>
        simp [PyJWKClient.get_signing_key, PyJWKClient.get_signing_keys,
          PyJWKClient.get_jwk_set, PyJWKClient.fetch_data, hrs, hm] at h <;>
        (subst h; rfl)
    | some ks =>
      cases hks : ks.isEmpty <;> cases hrs : rs.isEmpty <;>
        cases hm : matchKid ks kid <;> cases hm2 : matchKid rs kid <;>
          simp [PyJWKClient.get_signing_key, PyJWKClient.get_signing_keys,
            PyJWKClient.get_jwk_set, PyJWKClient.fetch_data, hks, hrs, hm, hm2] at h <;>
          (subst h; rfl)

theorem get_signing_key_from_jwt_err (c : PyJWKClient) (tok : TokStr) (e : PyExc)
    (h : (c.get_signing_key_from_jwt tok).2 = .error e) :
    caughtByVerify e = true ∨ e.kind = ExcKind.pyJWKClientError := by
  cases tok with
  | malformed r =>
    simp [PyJWKClient.get_signing_key_from_jwt] at h
    subst h; left; rfl
  | jwt t => right; exact get_signing_key_err _ _ _ h

theorem caughtByVerify_of_valueError (e : PyExc) (h : e.kind = ExcKind.valueError) :
    caughtByVerify e = false := by
  cases e <;> simp_all [PyExc.kind, caughtByVerify]

theorem rewrap_kind_valueError (e : PyExc) (h : caughtByVerify e = true) :
    (rewrap e).kind = ExcKind.valueError := by
  simp [rewrap, h, PyExc.kind]

/-- C1 (amended): every failure of `verify_token` is surfaced
synchronously to the caller as an exception, never silently swallowed, but
not always as `ValueError`: key-fetch failures (unknown key id, remote
fetch error) escape as `PyJWKClientError` — the distinct category
documented in the docstring of `verify_token` — a decoded payload whose
`iss` claim is absent or not a string fails with the
`KeyError`/`AttributeError` of the issuer access, and an `exp`, `nbf` or
`iat` claim of a type that `int()` rejects (JSON null or a list) escapes
as the uncaught `TypeError`; every other failure surfaces as `ValueError`. -/
theorem C1_failure_classification (svc : AppCheckService) (client : PyJWKClient)
    (token : PyVal) (now : Int) (e : PyExc)
    (h : (svc.verify_token client token now).2 = .error e) :
    e.kind = ExcKind.valueError ∨
    (e.kind = ExcKind.pyJWKClientError ∧
      ∃ tok, token = .str tok ∧ (client.get_signing_key_from_jwt tok).2 = .error e) ∨
    e = .keyError "iss" ∨ e.kind = ExcKind.attributeError ∨
    e.kind = ExcKind.typeError := by
  cases token with
  | none =>
    left
    simp [AppCheckService.verify_token, check_string_tok] at h
    subst h; rfl
  | int n =>
    left
    simp [AppCheckService.verify_token, check_string_tok] at h
    subst h; rfl
  | str tok0 =>
    unfold AppCheckService.verify_token at h
    simp only [check_string_tok] at h
    split at h
    · rename_i c1 e0 hkey
      simp at h
      subst h
      have hkey2 : (client.get_signing_key_from_jwt tok0).2 = .error e0 := by
        rw [hkey]
      cases get_signing_key_from_jwt_err _ _ _ hkey2 with
      | inl hc =>
        left
        exact rewrap_kind_valueError _ hc
      | inr hk =>
        right; left
        have hnc : caughtByVerify e0 = false := by
          cases e0 <;> simp_all [PyExc.kind, caughtByVerify]
        refine ⟨?_, tok0, rfl, ?_⟩ <;> simp [rewrap, hnc, hk, hkey2]
    · rename_i c1 key hkey
      split at h
      · rename_i e0 hhd
        simp at h
        subst h
        cases tok0 with
        | malformed r =>
          simp [get_unverified_header] at hhd
          subst hhd
          left; rfl
        | jwt t => simp [get_unverified_header] at hhd
      · rename_i hd hhd
        split at h
        · rename_i e0 hvh
          simp at h
          subst h
          have hk := has_valid_token_headers_err _ _ hvh
          have hnc := caughtByVerify_of_valueError _ hk
          left
          simp [rewrap, hnc, hk]
        · rename_i u hvh
          split at h
          · rename_i e0 hdav
            simp at h
            subst h
            rcases decode_and_verify_err _ _ _ _ _ hdav with hk | hk | hk | hk
            · have hnc := caughtByVerify_of_valueError _ hk
              left; simp [rewrap, hnc, hk]
            · subst hk
              right; right; left
              simp [rewrap, caughtByVerify]
            · right; right; right; left
              have hnc : caughtByVerify e0 = false := by
                cases e0 <;> simp_all [PyExc.kind, caughtByVerify]
              simp [rewrap, hnc, hk]
            · right; right; right; right
              have hnc : caughtByVerify e0 = false := by
                cases e0 <;> simp_all [PyExc.kind, caughtByVerify]
              simp [rewrap, hnc, hk]
          · simp at h

/-- Witness for C1 at a token referencing the unknown key id `nope`. -/
theorem C1_failure_classification_witness :
    (PyExc.pyJWKClientError "Unable to find a signing key that matches: \"nope\"").kind =
        ExcKind.valueError ∨
      ((PyExc.pyJWKClientError "Unable to find a signing key that matches: \"nope\"").kind =
          ExcKind.pyJWKClientError ∧
        ∃ tok, PyVal.str tokBadKid = .str tok ∧
          (clientX.get_signing_key_from_jwt tok).2 =
            .error (.pyJWKClientError "Unable to find a signing key that matches: \"nope\"")) ∨
      PyExc.pyJWKClientError "Unable to find a signing key that matches: \"nope\"" =
        .keyError "iss" ∨
      (PyExc.pyJWKClientError "Unable to find a signing key that matches: \"nope\"").kind =
        ExcKind.attributeError ∨
      (PyExc.pyJWKClientError "Unable to find a signing key that matches: \"nope\"").kind =
        ExcKind.typeError :=
  C1_failure_classification svcX clientX (.str tokBadKid) 1000 _ rfl

/-- Counterexample for C1 as stated: a token whose key id the key-fetch
collaborator cannot resolve makes `verify_token` fail with
`PyJWKClientError`, a different error category than `ValueError`. -/
theorem C1_unknown_kid_counterexample :
    (svcX.verify_token clientX (.str tokBadKid) 1000).2 =
      .error (.pyJWKClientError "Unable to find a signing key that matches: \"nope\"") ∧
    (PyExc.pyJWKClientError "Unable to find a signing key that matches: \"nope\"").kind ≠
      ExcKind.valueError :=
  ⟨rfl, by decide⟩

/-- C5: the decode step (`_decode_and_verify`) rejects each of: bad
signature, expired token, wrong audience and wrong issuer — each with its
own descriptive message, all exposed as the single `ValueError` kind (the
claim-validation hypotheses follow the PyJWT order: `iat` and `nbf` are
checked before `exp`, and a non-empty `aud` list is required for the
audience message, since a falsy `aud` takes the missing-claim path). -/
theorem C5_decode_step_rejections (svc : AppCheckService) (t : JwtToken)
    (key : String) (now : Int) :
    (lookupClaim t.header "alg" = some (.str "RS256") → t.signedBy ≠ key →
      decode_and_verify svc (.jwt t) key now =
        .error (.valueError "The provided App Check token has an invalid signature.")) ∧
    (∀ e, lookupClaim t.header "alg" = some (.str "RS256") → t.signedBy = key →
      validate_iat t.payload now = .ok () → validate_nbf t.payload now = .ok () →
      lookupClaim t.payload "exp" = some (.num e) → e ≤ now →
      decode_and_verify svc (.jwt t) key now =
        .error (.valueError "The provided App Check token has expired.")) ∧
    (∀ xs, lookupClaim t.header "alg" = some (.str "RS256") → t.signedBy = key →
      validate_iat t.payload now = .ok () → validate_nbf t.payload now = .ok () →
      validate_exp t.payload now = .ok () →
      lookupClaim t.payload "aud" = some (.arr xs) → xs.isEmpty = false →
      allStrs xs = true → audHas xs svc.scoped_project_id = false →
      decode_and_verify svc (.jwt t) key now =
        .error (.valueError
          ("The provided App Check token has an incorrect \"aud\" (audience) claim. Expected payload to include "
            ++ svc.scoped_project_id ++ "."))) ∧
    (∀ xs s, lookupClaim t.header "alg" = some (.str "RS256") → t.signedBy = key →
      validate_iat t.payload now = .ok () → validate_nbf t.payload now = .ok () →
      validate_exp t.payload now = .ok () →
      lookupClaim t.payload "aud" = some (.arr xs) → xs.isEmpty = false →
      allStrs xs = true → audHas xs svc.scoped_project_id = true →
      lookupClaim t.payload "iss" = some (.str s) →
      pyStartsWith s APP_CHECK_ISSUER = false →
      decode_and_verify svc (.jwt t) key now =
        .error (.valueError "Token does not contain the correct \"iss\" (issuer).")) := by
  refine ⟨?_, ?_, ?_, ?_⟩
  · intro halg hsig
    simp [decode_and_verify, jwt_decode, halg, hsig]
  · intro e halg hsig hiat hnbf hexp hle
    simp [decode_and_verify, jwt_decode, halg, hsig, hiat, hnbf, validate_exp,
      pyIntConv, hexp, hle]
  · intro xs halg hsig hiat hnbf hexp haud hne hastr hhas
    simp [decode_and_verify, jwt_decode, halg, hsig, hiat, hnbf, hexp, validate_aud,
      pyFalsy, haud, hne, hastr, hhas]
  · intro xs s halg hsig hiat hnbf hexp haud hne hastr hhas hiss hpre
    simp [decode_and_verify, jwt_decode, halg, hsig, hiat, hnbf, hexp, validate_aud,
      pyFalsy, haud, hne, hastr, hhas, hiss, hpre]

/-- Witness for C5: one concrete token per rejected condition. -/
theorem C5_decode_step_rejections_witness :
    decode_and_verify svcX (.jwt ⟨hdrX, payloadOkC4, "other-key"⟩) "key1" 1000 =
      .error (.valueError "The provided App Check token has an invalid signature.") ∧
    decode_and_verify svcX (.jwt ⟨hdrX, payloadExpired, "key1"⟩) "key1" 1000 =
      .error (.valueError "The provided App Check token has expired.") ∧
    decode_and_verify svcX (.jwt ⟨hdrX, payloadWrongAud, "key1"⟩) "key1" 1000 =
      .error (.valueError
        ("The provided App Check token has an incorrect \"aud\" (audience) claim. Expected payload to include "
          ++ svcX.scoped_project_id ++ ".")) ∧
    decode_and_verify svcX (.jwt ⟨hdrX, payloadBadIss, "key1"⟩) "key1" 1000 =
      .error (.valueError "Token does not contain the correct \"iss\" (issuer).") :=
  ⟨(C5_decode_step_rejections svcX ⟨hdrX, payloadOkC4, "other-key"⟩ "key1" 1000).1
      rfl (by decide),
   (C5_decode_step_rejections svcX ⟨hdrX, payloadExpired, "key1"⟩ "key1" 1000).2.1
      500 rfl rfl rfl rfl rfl (by decide),
   (C5_decode_step_rejections svcX ⟨hdrX, payloadWrongAud, "key1"⟩ "key1" 1000).2.2.1
      [.str "projects/other"] rfl rfl rfl rfl rfl rfl rfl rfl rfl,
   (C5_decode_step_rejections svcX ⟨hdrX, payloadBadIss, "key1"⟩ "key1" 1000).2.2.2
      [.str "projects/proj-x"] "https://evil.example.com/proj-x"
      rfl rfl rfl rfl rfl rfl rfl rfl rfl rfl rfl⟩

/-- C8: a well-formed token signed by the resolved key, whose `aud` list
contains the expected audience, whose `iss` starts with the issuer base
URL, which passes the `iat`/`nbf` checks and is not expired and has a
non-empty string `sub`, verifies successfully; the returned mapping is the
payload with `app_id` bound to the `sub` value and contains the keys
`sub`, `aud`, `iss` and `app_id`. -/
theorem C8_valid_token_success (svc : AppCheckService) (client : PyJWKClient)
    (t : JwtToken) (now : Int) (key : String) (e : Int) (xs : List JVal)
    (issStr subStr : String)
    (h_key : (client.get_signing_key_from_jwt (.jwt t)).2 = .ok key)
    (h_typ : lookupClaim t.header "typ" = some (.str "JWT"))
    (h_alg : lookupClaim t.header "alg" = some (.str "RS256"))
    (h_sig : t.signedBy = key)
    (h_iat : validate_iat t.payload now = .ok ())
    (h_nbf : validate_nbf t.payload now = .ok ())
    (h_exp : lookupClaim t.payload "exp" = some (.num e))
    (h_fut : now < e)
    (h_aud : lookupClaim t.payload "aud" = some (.arr xs))
    (h_astr : allStrs xs = true)
    (h_has : audHas xs svc.scoped_project_id = true)
    (h_iss : lookupClaim t.payload "iss" = some (.str issStr))
    (h_pre : pyStartsWith issStr APP_CHECK_ISSUER = true)
    (h_sub : lookupClaim t.payload "sub" = some (.str subStr))
    (_h_ne : subStr ≠ "") :
    (svc.verify_token client (.str (.jwt t)) now).2 = .ok (setAppId t.payload) ∧
    lookupClaim (setAppId t.payload) "app_id" = some (.str subStr) ∧
    lookupClaim (setAppId t.payload) "sub" = some (.str subStr) ∧
    (lookupClaim (setAppId t.payload) "aud").isSome = true ∧
    (lookupClaim (setAppId t.payload) "iss").isSome = true := by
  have hnonempty : xs.isEmpty = false := by
    cases xs with
    | nil => simp [audHas] at h_has
    | cons a as => rfl
  have hdav : decode_and_verify svc (.jwt t) key now = .ok t.payload := by
    simp [decode_and_verify, jwt_decode, h_alg, h_sig, h_iat, h_nbf, validate_exp,
      pyIntConv, h_exp, not_le.mpr h_fut, validate_aud, pyFalsy, hnonempty, h_aud,
      h_astr, h_has, h_iss, h_pre, check_string, h_sub]
  have hvh : has_valid_token_headers t.header = .ok () := by
    simp [has_valid_token_headers, h_typ, h_alg]
  have h_key2 : (client.get_signing_key (headerKid t.header)).2 = .ok key := h_key
  refine ⟨?_, ?_, ?_, ?_, ?_⟩
  · rw [verify_jwt_decomp]
    rw [h_key2]
    simp [afterKey, hvh, hdav]
  · unfold setAppId; rw [h_sub]; exact lookupClaim_dictSet_self _ _ _
  · unfold setAppId; rw [lookupClaim_dictSet_ne _ _ _ _ (by decide), h_sub]
  · unfold setAppId; rw [lookupClaim_dictSet_ne _ _ _ _ (by decide), h_aud]; rfl
  · unfold setAppId; rw [lookupClaim_dictSet_ne _ _ _ _ (by decide), h_iss]; rfl

/-- Witness for C8 at the corrected concrete scenario token. -/
theorem C8_valid_token_success_witness :
    (svcX.verify_token clientX (.str tokOkC4) 1000).2 = .ok (setAppId payloadOkC4) ∧
    lookupClaim (setAppId payloadOkC4) "app_id" = some (.str "1:1234:android:abcd") ∧
    lookupClaim (setAppId payloadOkC4) "sub" = some (.str "1:1234:android:abcd") ∧
    (lookupClaim (setAppId payloadOkC4) "aud").isSome = true ∧
    (lookupClaim (setAppId payloadOkC4) "iss").isSome = true :=
  C8_valid_token_success svcX clientX ⟨hdrX, payloadOkC4, "key1"⟩ 1000 "key1" 2000
    [.str "projects/proj-x"] issX "1:1234:android:abcd"
    rfl rfl rfl rfl rfl rfl rfl (by decide) rfl rfl rfl rfl rfl rfl (by decide)
